import Mathlib

/-!
Shallow embedding of the S3-backed `File` implementation in `src/s3/file.go`
of the vfs repository, together with theorems settling the claims about it.

External effects (the AWS client, the local filesystem, `time.Sleep`) are
modelled by environment records that carry the outcome each external call
would produce; the embedded functions consume those outcomes exactly in the
order and under the conditions the Go code performs the calls, and report
observable traces (numbers of remote calls, whether the uploader ran) next
to the returned values. Machine-level details that the claims do not touch
(byte values, AWS request shapes) are abstracted: errors are opaque strings,
object contents are lists of naturals.
-/

namespace VfsS3

/-- An error value returned by `HeadObject`, as inspected by `File.Exists`
(file.go lines 69-82): either an AWS-typed error carrying a code (the
`awserr.Error` interface) or an error value of some other dynamic type. -/
inductive HeadErr where
  | awsError (code : String)
  | nonAwsError (tag : String)
deriving DecidableEq, Repr

/-- Observable behaviour of one `File.Exists()` call: either the function
returns a `(found, err)` pair, or the unconditional type assertion
`err.(awserr.Error)` on line 73 panics. -/
inductive ExistsResult where
  | returns (found : Bool) (err : Option HeadErr)
  | panics
deriving DecidableEq, Repr

/-- The constant `s3.ErrCodeNoSuchKey` of the AWS SDK. -/
def errCodeNoSuchKey : String := "NoSuchKey"

/-- Embedding of `File.Exists` (file.go lines 69-82). The argument is the
error component of `getHeadObject` (`none` on success). The Go code first
runs `code = err.(awserr.Error).Code()` whenever `err != nil`, which panics
for a non-AWS-typed error; otherwise it returns `(false, nil)` when the code
is `NoSuchKey` or `"NotFound"`, `(false, err)` for any other code, and
`(true, nil)` when there was no error. -/
def existsCheck : Option HeadErr → ExistsResult
  | none => .returns true none
  | some (.awsError c) =>
      if c = errCodeNoSuchKey ∨ c = "NotFound" then .returns false none
      else .returns false (some (.awsError c))
  | some (.nonAwsError _) => .panics

/-- Outcome of one `file.Exists()` call as observed by the retry loop of
`waitUntilFileExists`: `(true, nil)`, `(false, nil)`, or a non-nil error. -/
inductive ExistsOutcome where
  | found
  | notFound
  | errored
deriving DecidableEq, Repr

/-- The two error values `waitUntilFileExists` can produce:
`timeout` models `errors.New(fmt.Sprintf("Failed to find file %s after %d", ...))`
(line 391) and `checkFailed` models
`errors.New("unable to check for file on S3")` (line 397). -/
inductive PollErrK where
  | timeout
  | checkFailed
deriving DecidableEq, Repr

/-- The retry loop of `waitUntilFileExists` (file.go lines 388-406).
`seq i` is the outcome of the `i`-th `Exists` call overall, `calls` the
number of calls made so far, and `fuel = retries - retryCount` the number
of loop iterations left before `retryCount == retries` triggers the timeout
return. Returns the loop's error (or `none` for the `break`/success path)
together with the total number of `Exists` calls made. -/
def pollLoop (seq : Nat → ExistsOutcome) : Nat → Nat → Option PollErrK × Nat
  | calls, 0 => (some .timeout, calls)
  | calls, fuel + 1 =>
    match seq calls with
    | .errored => (some .checkFailed, calls + 1)
    | .found => (none, calls + 1)
    | .notFound => pollLoop seq (calls + 1) fuel

/-- Embedding of `waitUntilFileExists` (file.go lines 378-409). `isMock`
is the `file.(*mocks.ReadWriteFile)` type test of line 380 (always false for
the s3 `File` of this package); `retries` is the Go `int` argument. Result:
`some (err?, existsCalls)` for a terminating run. For `retries < -1` the Go
loop can never satisfy `retryCount == retries`, so it terminates only when
the sequence produces `found` or an error; no caller passes such a value and
the embedding conservatively reports divergence as `none`. -/
def waitUntilFileExists (isMock : Bool) (seq : Nat → ExistsOutcome)
    (retries : Int) : Option (Option PollErrK × Nat) :=
  if isMock then some (none, 0)
  else if retries = -1 then some (none, 0)
  else if retries < 0 then none
  else some (pollLoop seq 0 retries.toNat)

/-- A materialized local mirror: the Go `tempFile *os.File` field, carrying
the temporary file's name, its cursor offset, and the bytes that were copied
into it from the remote object. -/
structure Mirror where
  name : String
  cursor : Nat
  content : List Nat
deriving DecidableEq, Repr

/-- The mutable state of a `File` (file.go lines 22-28). The
`fileSystem *FileSystem` pointer is a handle to the shared client and is
modelled only at construction time (as a presence flag); `bucket` and `key`
are the identity fields, `tempFile` and `writeBuffer` the two transient
resources. -/
structure FileState where
  bucket : String
  key : String
  tempFile : Option Mirror
  writeBuffer : Option (List Nat)
deriving DecidableEq, Repr

/-- Modelled from the spec: `vfs.CleanPrefix` is repository code that is not
under `src/`; spec §3 states the key is "normalized to strip any leading
path separators". -/
def normalizeKey (key : String) : String :=
  String.mk (key.toList.dropWhile (fun c => c = '/'))

/-- Embedding of `newFile` (file.go lines 31-44): validates that the
filesystem pointer is present and that bucket and key are non-empty, cleans
the key's leading separators, and builds the `File` with both transient
fields nil. It performs no remote call. -/
def newFile (fsPresent : Bool) (bucket key : String) : Except String FileState :=
  if !fsPresent then .error "non-nil s3.fileSystem pointer is required"
  else if bucket = "" ∨ key = "" then
    .error "non-empty strings for bucket and key are required"
  else .ok { bucket := bucket, key := normalizeKey key,
             tempFile := none, writeBuffer := none }

/-- Embedding of `File.Write` (file.go lines 253-267): if the buffer is nil
it is initialized with zero content (`bytes.NewBuffer([]byte{})`), then
`writeBuffer.Write(data)` appends `data` and reports `len(data)` written.
Result: (new state, reported byte count, number of remote store operations
performed — the body makes no client call, hence `0`). -/
def fileWrite (f : FileState) (data : List Nat) : FileState × Nat × Nat :=
  let init : List Nat :=
    match f.writeBuffer with
    | none => []
    | some b => b
  ({ f with writeBuffer := some (init ++ data) }, data.length, 0)

/-- Outcome of `os.Remove(f.tempFile.Name())` in `File.Close` (line 205):
removed, failed with an error satisfying `os.IsNotExist` (which line 206
ignores), or failed with any other error. -/
inductive RemoveResult where
  | removed
  | notExist
  | failed (e : String)
deriving DecidableEq, Repr

/-- Environment for one run of `File.Close`: the outcomes the external calls
would produce if reached. `tempCloseErr` is the error of the deferred
`f.tempFile.Close()` (line 203), `removeRes` the outcome of `os.Remove`,
`uploadErr` the outcome of `uploader.Upload` (line 217), and `existsSeq`
the outcomes of the `Exists` calls made by `waitUntilFileExists`. -/
structure CloseEnv where
  tempCloseErr : Option String
  removeRes : RemoveResult
  uploadErr : Option String
  existsSeq : Nat → ExistsOutcome

/-- Modelled from the spec: `vfs.NewMutliErr` and its `Append`, `DeferFunc`
and `OrNil` methods are repository code not under `src/`. Per spec §4.4,
failures are aggregated and Close "returns the first aggregated error, or
nothing on full success": the aggregator is a list of appended errors and
`OrNil` yields its head, or nothing when no error was appended. -/
def multiErrOrNil (errs : List String) : Option String := errs.head?

/-- Intermediate result of the body of `File.Close` before the deferred
functions run: the state after the body's field assignments, the errors
appended inline (via `errs.Append`), whether the uploader was invoked, and
how many `Exists` calls the consistency poll made. -/
structure ClosePath where
  state : FileState
  inlineErrs : List String
  uploadCalled : Bool
  existsCalls : Nat
deriving Repr

/-- Final poll step of the `File.Close` body (line 225):
`waitUntilFileExists(f, 5)`. Its error is handed to `return err`, but the
deferred `rerr = errs.OrNil()` (line 200) then overwrites the named return
value, so the poll error is never appended and never survives; only the
number of `Exists` calls is observable. -/
def closeBodyPoll (f : FileState) (env : CloseEnv) (uploaded : Bool) : ClosePath :=
  match waitUntilFileExists false env.existsSeq 5 with
  | some (_perr, calls) =>
    { state := f, inlineErrs := [], uploadCalled := uploaded, existsCalls := calls }
  | none =>
    { state := f, inlineErrs := [], uploadCalled := uploaded, existsCalls := 0 }

/-- Write-buffer block of the `File.Close` body (lines 213-223): when a
buffer exists the uploader runs; a non-nil upload error is appended and
returned at once — control never reaches the `f.writeBuffer = nil`
assignment of line 223, so the buffer survives. On success (or with no
buffer) line 223 clears the buffer and the poll step follows. -/
def closeBodyUpload (f : FileState) (env : CloseEnv) : ClosePath :=
  match f.writeBuffer with
  | some _ =>
    match env.uploadErr with
    | some e =>
      { state := f, inlineErrs := [e], uploadCalled := true, existsCalls := 0 }
    | none => closeBodyPoll { f with writeBuffer := none } env true
  | none => closeBodyPoll { f with writeBuffer := none } env false

/-- Body of `File.Close` (lines 197-229), without the deferred functions.
The tempFile block (lines 202-211): with a mirror present, its `Close` is
deferred, then `os.Remove` runs; a failure other than not-exist is appended
and returned at once — `f.tempFile = nil` (line 210) is not reached and the
upload block is never attempted. Otherwise the mirror reference is cleared
and the buffer block runs. -/
def closeBody (f : FileState) (env : CloseEnv) : ClosePath :=
  match f.tempFile with
  | some _ =>
    match env.removeRes with
    | .failed e =>
      { state := f, inlineErrs := [e], uploadCalled := false, existsCalls := 0 }
    | _ => closeBodyUpload { f with tempFile := none } env
  | none => closeBodyUpload f env

/-- Observable result of `File.Close`: final state, the returned error, and
the remote-call trace. -/
structure CloseResult where
  state : FileState
  rerr : Option String
  uploadCalled : Bool
  existsCalls : Nat
deriving Repr

/-- Embedding of `File.Close` (file.go lines 197-229). After the body runs,
the deferred `errs.DeferFunc(f.tempFile.Close)` appends the mirror-close
error (when a mirror existed on entry and its close failed), and the
deferred `rerr = errs.OrNil()` assigns the first aggregated error — or
nothing — as the result, overwriting whatever the body's `return` supplied. -/
def closeFile (f : FileState) (env : CloseEnv) : CloseResult :=
  let p := closeBody f env
  let deferredErrs : List String :=
    match f.tempFile, env.tempCloseErr with
    | some _, some c => [c]
    | _, _ => []
  { state := p.state, rerr := multiErrOrNil (p.inlineErrs ++ deferredErrs),
    uploadCalled := p.uploadCalled, existsCalls := p.existsCalls }

/-- The `path.Base` of the key, as `File.Name` (file.go lines 58-60)
computes it: the last slash-separated element. Keys here are non-empty,
with leading separators stripped at construction. -/
def baseNameOf (key : String) : String :=
  match (key.splitOn "/").getLast? with
  | some s => s
  | none => key

/-- Environment for one materialization attempt of the local mirror: the
outcomes of `ioutil.TempFile`, `GetObject` (via `f.getObject`), `io.Copy`
and `tmpFile.Seek(0,0)`, plus the `time.Now().UnixNano()` stamp used in the
temporary file's name. -/
structure ReadEnv where
  tempCreateErr : Option String
  getObjectRes : Except String (List Nat)
  copyErr : Option String
  seekErr : Option String
  stamp : Nat

/-- Embedding of `copyToLocalTempReader` (file.go lines 316-338): create the
temp file named after the basename and the timestamp, fetch the object,
stream it in, seek back to offset 0. Any failure aborts with that error.
Also reports the number of `GetObject` calls made (0 or 1). -/
def copyToLocalTempReader (baseName : String) (env : ReadEnv) :
    Except String Mirror × Nat :=
  match env.tempCreateErr with
  | some e => (.error e, 0)
  | none =>
    match env.getObjectRes with
    | .error e => (.error e, 1)
    | .ok content =>
      match env.copyErr with
      | some e => (.error e, 1)
      | none =>
        match env.seekErr with
        | some e => (.error e, 1)
        | none =>
          (.ok { name := baseName ++ "." ++ toString env.stamp,
                 cursor := 0, content := content }, 1)

/-- Embedding of `checkTempFile` (file.go lines 304-314), the gate both
`Read` and `Seek` pass through: with a mirror already present it does
nothing; otherwise it attempts materialization, and only on success assigns
`f.tempFile`. Result: (new state, error, number of `GetObject` calls). -/
def checkTempFile (f : FileState) (env : ReadEnv) :
    FileState × Option String × Nat :=
  match f.tempFile with
  | some _ => (f, none, 0)
  | none =>
    match copyToLocalTempReader (baseNameOf f.key) env with
    | (.error e, n) => (f, some e, n)
    | (.ok m, n) => ({ f with tempFile := some m }, none, n)

/-- Environment for a move: the outcome of the copy step
(`CopyToFile` / `CopyToLocation`) and of the `Delete` step. -/
structure MoveEnv where
  copyErr : Option String
  deleteErr : Option String
deriving DecidableEq, Repr

/-- Embedding of `File.MoveToFile` (file.go lines 129-135): if
`CopyToFile` fails its error is returned and `Delete` is not called;
otherwise the result is `f.Delete()`. Result: (returned error, whether
`Delete` was invoked). -/
def moveToFile (env : MoveEnv) : Option String × Bool :=
  match env.copyErr with
  | some e => (some e, false)
  | none => (env.deleteErr, true)

/-- Embedding of `File.MoveToLocation` (file.go lines 141-148): if
`CopyToLocation` fails, `(nil, err)` is returned and `Delete` is not
called; otherwise `Delete` runs and the new file is returned together
with the delete error. `copied` is the destination handle a successful
`CopyToLocation` produces. Result: (returned handle, returned error,
whether `Delete` was invoked). -/
def moveToLocation (env : MoveEnv) (copied : FileState) :
    Option FileState × Option String × Bool :=
  match env.copyErr with
  | some e => (none, some e, false)
  | none => (some copied, env.deleteErr, true)

/-! Concrete inputs used by witnesses and counterexamples. -/

/-- A `File` with both transient resources cleared (the state left behind by
a completed `Close`). -/
def clearedFile : FileState :=
  { bucket := "b", key := "k", tempFile := none, writeBuffer := none }

/-- An `Exists` sequence that always reports the object visible. -/
def alwaysFound : Nat → ExistsOutcome := fun _ => .found

/-- A `Close` environment in which every external call succeeds. -/
def envFound : CloseEnv :=
  { tempCloseErr := none, removeRes := .removed, uploadErr := none,
    existsSeq := alwaysFound }

/-- The `Exists` sequence `[false, false, true, true, ...]` of spec §8. -/
def seqFFT : Nat → ExistsOutcome
  | 0 => .notFound
  | 1 => .notFound
  | _ => .found

/-- The `Exists` sequence that never reports the object visible. -/
def seqFFF : Nat → ExistsOutcome := fun _ => .notFound

/-- An `Exists` sequence whose second call fails with a non-nil error. -/
def seqErr1 : Nat → ExistsOutcome
  | 0 => .notFound
  | 1 => .errored
  | _ => .found

/-! Helper lemmas about the poll loop. -/

/-- The poll loop never decreases the running `Exists`-call counter. -/
theorem pollLoop_le (seq : Nat → ExistsOutcome) :
    ∀ (fuel calls : Nat), calls ≤ (pollLoop seq calls fuel).2 := by
  intro fuel
  induction fuel with
  | zero => intro calls; simp [pollLoop]
  | succ n ih =>
    intro calls
    rcases h : seq calls with _ | _ | _
    · simp [pollLoop, h]
    · simp only [pollLoop, h]
      exact le_trans (Nat.le_succ _) (ih (calls + 1))
    · simp [pollLoop, h]

/-- With at least one unit of fuel the poll loop makes at least one
`Exists` call. -/
theorem pollLoop_succ_le (seq : Nat → ExistsOutcome) (fuel calls : Nat) :
    calls + 1 ≤ (pollLoop seq calls (fuel + 1)).2 := by
  rcases h : seq calls with _ | _ | _
  · simp [pollLoop, h]
  · simp only [pollLoop, h]
    exact pollLoop_le seq fuel (calls + 1)
  · simp [pollLoop, h]

/-- Close's fixed budget of 5 always produces at least one `Exists` call. -/
theorem pollLoop_five_pos (seq : Nat → ExistsOutcome) :
    1 ≤ (pollLoop seq 0 5).2 := by
  have h := pollLoop_succ_le seq 4 0
  simpa using h

/-- For a nonnegative budget passed as a natural number, the wait reduces to
the poll loop with that much fuel. -/
theorem waitUntil_natCast (seq : Nat → ExistsOutcome) (retries : Nat) :
    waitUntilFileExists false seq (retries : Int) = some (pollLoop seq 0 retries) := by
  unfold waitUntilFileExists
  have h1 : ¬(((retries : Nat) : Int) = -1) := by omega
  have h2 : ¬(((retries : Nat) : Int) < 0) := by omega
  simp [h1, h2]

/-- If the first `k` `Exists` outcomes are `notFound` and the next one is an
error, a loop with more than `k` units of fuel stops at that error after
exactly `k + 1` calls. -/
theorem pollLoop_errored_spec (seq : Nat → ExistsOutcome) :
    ∀ (k fuel calls : Nat), (∀ j, j < k → seq (calls + j) = .notFound) →
      seq (calls + k) = .errored → k < fuel →
      pollLoop seq calls fuel = (some .checkFailed, calls + k + 1) := by
  intro k
  induction k with
  | zero =>
    intro fuel calls _hpre herr hlt
    obtain ⟨m, rfl⟩ : ∃ m, fuel = m + 1 := ⟨fuel - 1, by omega⟩
    simp only [Nat.add_zero] at herr
    simp [pollLoop, herr]
  | succ k ih =>
    intro fuel calls hpre herr hlt
    obtain ⟨m, rfl⟩ : ∃ m, fuel = m + 1 := ⟨fuel - 1, by omega⟩
    have h0 : seq calls = .notFound := by
      have h := hpre 0 (Nat.succ_pos k)
      simpa using h
    simp only [pollLoop, h0]
    have hpre' : ∀ j, j < k → seq (calls + 1 + j) = .notFound := by
      intro j hj
      have h := hpre (j + 1) (by omega)
      have he : calls + (j + 1) = calls + 1 + j := by omega
      rw [he] at h
      exact h
    have herr' : seq (calls + 1 + k) = .errored := by
      have he : calls + (k + 1) = calls + 1 + k := by omega
      rw [he] at herr
      exact herr
    have hres := ih m (calls + 1) hpre' herr' (by omega)
    have he2 : calls + 1 + k + 1 = calls + (k + 1) + 1 := by omega
    rw [he2] at hres
    exact hres

/-- C2 counterexample: with retry budget 2 and `Exists` sequence
`[false, false, true]`, the poller does not return success after a third
check — it makes only two checks and fails with the timeout error. -/
theorem C2_third_check_cex :
    waitUntilFileExists false seqFFT 2 ≠ some (none, 3) ∧
    waitUntilFileExists false seqFFT 2 = some (some PollErrK.timeout, 2) := by
  decide

/-- C2 amended: a budget of `n` makes at most `n` `Exists` calls, so with
budget 2 the sequence `[false, false, true]` times out after two checks and
success on the third check needs budget 3; `[false, false, false]` with
budget 2 times out; budget `-1` succeeds with no `Exists` call; and a
non-nil `Exists` error aborts the poll immediately with an error distinct
from the timeout error. -/
theorem C2_poller_budget :
    waitUntilFileExists false seqFFT 2 = some (some PollErrK.timeout, 2) ∧
    waitUntilFileExists false seqFFT 3 = some (none, 3) ∧
    waitUntilFileExists false seqFFF 2 = some (some PollErrK.timeout, 2) ∧
    (∀ seq : Nat → ExistsOutcome, waitUntilFileExists false seq (-1) = some (none, 0)) ∧
    (∀ (seq : Nat → ExistsOutcome) (k retries : Nat),
       (∀ j, j < k → seq j = .notFound) → seq k = .errored → k < retries →
       waitUntilFileExists false seq (retries : Int) =
         some (some PollErrK.checkFailed, k + 1)) ∧
    PollErrK.checkFailed ≠ PollErrK.timeout := by
  refine ⟨by decide, by decide, by decide, ?_, ?_, by decide⟩
  · intro seq
    simp [waitUntilFileExists]
  · intro seq k retries hpre herr hlt
    rw [waitUntil_natCast]
    have hres := pollLoop_errored_spec seq k retries 0
      (fun j hj => by simpa using hpre j hj) (by simpa using herr) hlt
    rw [hres]
    simp

/-- C2 witness: a sequence whose second check errors, polled with budget 2,
aborts with the check-failure error after two calls. -/
theorem C2_poller_budget_witness :
    waitUntilFileExists false seqErr1 ((2 : Nat) : Int) =
      some (some PollErrK.checkFailed, 2) :=
  C2_poller_budget.2.2.2.2.1 seqErr1 1 2
    (fun j hj => by
      have hj0 : j = 0 := by omega
      subst hj0
      rfl)
    rfl (by omega)

/-! Helper lemmas about `File.Close`. -/

/-- The poll step of Close always runs the budget-5 wait, keeps the state,
appends no inline error, and reports the loop's `Exists`-call count. -/
theorem closeBodyPoll_spec (f : FileState) (env : CloseEnv) (uploaded : Bool) :
    closeBodyPoll f env uploaded =
      { state := f, inlineErrs := [], uploadCalled := uploaded,
        existsCalls := (pollLoop env.existsSeq 0 5).2 } := by
  rcases h : pollLoop env.existsSeq 0 5 with ⟨p, c⟩
  simp [closeBodyPoll, waitUntilFileExists, h]

/-- The body of Close never changes the identity fields of the file. -/
theorem closeBody_preserves_identity (g : FileState) (cenv : CloseEnv) :
    (closeBody g cenv).state.bucket = g.bucket ∧
    (closeBody g cenv).state.key = g.key := by
  rcases ht : g.tempFile with _ | m <;>
    rcases hr : cenv.removeRes with _ | _ | e <;>
      rcases hb : g.writeBuffer with _ | b <;>
        rcases hu : cenv.uploadErr with _ | eu <;>
          simp [closeBody, closeBodyUpload, ht, hr, hb, hu, closeBodyPoll_spec]

/-! C1: when Close runs the consistency poller. -/

/-- C1 counterexample: a second Close on a File whose mirror and buffer are
both already cleared still performs a remote `Exists` call — the poller runs
(budget 5) although no write occurred, so the claimed "no remote I/O" and
"poller skipped" behaviour does not hold. -/
theorem C1_second_close_cex :
    (closeFile clearedFile envFound).existsCalls = 1 ∧
    (closeFile clearedFile envFound).existsCalls ≠ 0 ∧
    (closeFile clearedFile envFound).uploadCalled = false ∧
    (closeFile clearedFile envFound).rerr = none := by
  refine ⟨rfl, by decide, rfl, rfl⟩

/-- C1 amended: Close invokes the consistency poller (budget 5) whenever the
mirror-removal and buffer-commit steps did not abort, regardless of whether
a write occurred; in particular a second Close on a cleared File performs at
least one `Exists` metadata call, does not upload, and returns success. -/
theorem C1_close_always_polls (f : FileState) (env : CloseEnv)
    (hrem : ∀ e, env.removeRes ≠ .failed e)
    (hup : f.writeBuffer = none ∨ env.uploadErr = none) :
    1 ≤ (closeFile f env).existsCalls ∧
    (f.tempFile = none → f.writeBuffer = none →
      (closeFile f env).uploadCalled = false ∧ (closeFile f env).rerr = none) := by
  have key : ∀ g : FileState, (g.writeBuffer = none ∨ env.uploadErr = none) →
      1 ≤ (closeBodyUpload g env).existsCalls := by
    intro g hg
    rcases hb : g.writeBuffer with _ | b
    · simp only [closeBodyUpload, hb, closeBodyPoll_spec]
      exact pollLoop_five_pos env.existsSeq
    · rcases hg with hg | hg
      · rw [hb] at hg
        exact absurd hg (by simp)
      · simp only [closeBodyUpload, hb, hg, closeBodyPoll_spec]
        exact pollLoop_five_pos env.existsSeq
  constructor
  · rcases ht : f.tempFile with _ | m
    · simp only [closeFile, closeBody, ht]
      exact key f hup
    · rcases hr : env.removeRes with _ | _ | e
      · simp only [closeFile, closeBody, ht, hr]
        exact key _ hup
      · simp only [closeFile, closeBody, ht, hr]
        exact key _ hup
      · exact absurd hr (hrem e)
  · intro ht hb
    simp [closeFile, closeBody, ht, closeBodyUpload, hb, closeBodyPoll_spec,
      multiErrOrNil]

/-- C1 witness: the cleared File under an all-success environment. -/
theorem C1_close_always_polls_witness :
    1 ≤ (closeFile clearedFile envFound).existsCalls ∧
    (clearedFile.tempFile = none → clearedFile.writeBuffer = none →
      (closeFile clearedFile envFound).uploadCalled = false ∧
      (closeFile clearedFile envFound).rerr = none) :=
  C1_close_always_polls clearedFile envFound (fun e => by simp [envFound])
    (Or.inl rfl)

/-! C3: the write buffer on commit failure. -/

/-- A File with only a pending write buffer. -/
def bufFile : FileState :=
  { bucket := "b", key := "k", tempFile := none, writeBuffer := some [1, 2, 3] }

/-- A Close environment whose upload fails. -/
def envUploadFail : CloseEnv :=
  { tempCloseErr := none, removeRes := .removed,
    uploadErr := some "upload failed", existsSeq := alwaysFound }

/-- C3 counterexample: when the commit fails, Close returns the commit error
but the buffer reference is still set — line 223 (`f.writeBuffer = nil`) is
skipped by the early return of line 219, so a retried Close would resubmit
the same bytes. -/
theorem C3_buffer_kept_cex :
    (closeFile bufFile envUploadFail).state.writeBuffer = some [1, 2, 3] ∧
    (closeFile bufFile envUploadFail).state.writeBuffer ≠ none ∧
    (closeFile bufFile envUploadFail).rerr = some "upload failed" := by
  refine ⟨rfl, by decide, rfl⟩

/-- C3 amended: the buffer reference is cleared only when Close reaches the
commit and the commit succeeds; on a commit failure the error is surfaced
and the buffer reference survives, so a retried Close resubmits the same
buffered bytes. -/
theorem C3_buffer_cleared_only_on_success (f : FileState) (env : CloseEnv)
    (b : List Nat) (htemp : f.tempFile = none) (hbuf : f.writeBuffer = some b) :
    (env.uploadErr = none →
       (closeFile f env).state.writeBuffer = none ∧
       (closeFile f env).uploadCalled = true) ∧
    (∀ e, env.uploadErr = some e →
       (closeFile f env).state.writeBuffer = some b ∧
       (closeFile f env).rerr = some e ∧
       (closeFile f env).uploadCalled = true) := by
  constructor
  · intro hup
    simp [closeFile, closeBody, htemp, closeBodyUpload, hbuf, hup,
      closeBodyPoll_spec, multiErrOrNil]
  · intro e hup
    simp [closeFile, closeBody, htemp, closeBodyUpload, hbuf, hup,
      multiErrOrNil]

/-- C3 witness: the buffered File under the failing-upload environment. -/
theorem C3_buffer_cleared_only_on_success_witness :
    (closeFile bufFile envUploadFail).state.writeBuffer = some [1, 2, 3] ∧
    (closeFile bufFile envUploadFail).rerr = some "upload failed" ∧
    (closeFile bufFile envUploadFail).uploadCalled = true :=
  (C3_buffer_cleared_only_on_success bufFile envUploadFail [1, 2, 3] rfl rfl).2
    "upload failed" rfl

/-! C4: mirror-removal failure versus the buffer commit. -/

/-- A materialized mirror. -/
def mirror0 : Mirror := { name := "report.txt.1", cursor := 0, content := [7] }

/-- A File with both a mirror and a pending write buffer. -/
def bothFile : FileState :=
  { bucket := "b", key := "k", tempFile := some mirror0,
    writeBuffer := some [9] }

/-- A Close environment whose `os.Remove` fails with an error that is not
a not-exist error. -/
def envRemoveFail : CloseEnv :=
  { tempCloseErr := none, removeRes := .failed "permission denied",
    uploadErr := none, existsSeq := alwaysFound }

/-- C4 counterexample: with both a mirror and a buffer present, a failure
removing the mirror's backing storage makes Close return at once — the
buffer commit is never attempted, no poll happens, and the buffer (and even
the mirror reference) survive. -/
theorem C4_remove_failure_cex :
    (closeFile bothFile envRemoveFail).uploadCalled = false ∧
    (closeFile bothFile envRemoveFail).existsCalls = 0 ∧
    (closeFile bothFile envRemoveFail).rerr = some "permission denied" ∧
    (closeFile bothFile envRemoveFail).state.writeBuffer = some [9] ∧
    (closeFile bothFile envRemoveFail).state.tempFile = some mirror0 := by
  exact ⟨rfl, rfl, rfl, rfl, rfl⟩

/-- C4 amended: a non-not-exist failure while removing the mirror's backing
storage aborts Close immediately — the commit is not attempted and the
removal error is returned first (the deferred mirror-close error is
aggregated after it); only when the removal succeeds or fails as not-exist
is the commit of a present buffer attempted. -/
theorem C4_remove_failure_aborts (f : FileState) (env : CloseEnv)
    (m : Mirror) (e : String) (htemp : f.tempFile = some m) :
    (env.removeRes = .failed e →
       (closeFile f env).uploadCalled = false ∧
       (closeFile f env).existsCalls = 0 ∧
       (closeFile f env).rerr = some e ∧
       (closeFile f env).state = f) ∧
    ((env.removeRes = .removed ∨ env.removeRes = .notExist) →
       ∀ b, f.writeBuffer = some b → (closeFile f env).uploadCalled = true) := by
  constructor
  · intro hrem
    simp [closeFile, closeBody, htemp, hrem, multiErrOrNil]
  · rintro (hrem | hrem) b hbuf <;>
      · rcases hup : env.uploadErr with _ | eu <;>
          simp [closeFile, closeBody, htemp, hrem, closeBodyUpload, hbuf, hup,
            closeBodyPoll_spec]

/-- C4 witness: the double-resource File under the failing-removal
environment. -/
theorem C4_remove_failure_aborts_witness :
    (closeFile bothFile envRemoveFail).uploadCalled = false ∧
    (closeFile bothFile envRemoveFail).existsCalls = 0 ∧
    (closeFile bothFile envRemoveFail).rerr = some "permission denied" ∧
    (closeFile bothFile envRemoveFail).state = bothFile :=
  (C4_remove_failure_aborts bothFile envRemoveFail mirror0 "permission denied"
    rfl).1 rfl

/-! C5 and C10: the error handling of `File.Exists`. -/

/-- C5 counterexample: when the metadata query fails with an error value
that is not AWS-typed, `Exists` panics at the `err.(awserr.Error)` type
assertion instead of returning `(false, err)`. -/
theorem C5_non_aws_cex :
    existsCheck (some (.nonAwsError "connection reset")) = .panics ∧
    existsCheck (some (.nonAwsError "connection reset")) ≠
      .returns false (some (.nonAwsError "connection reset")) := by
  decide

/-- C5 amended: restricted to AWS-typed errors, `Exists` returns
`(false, nil)` exactly for the not-found codes (`NoSuchKey`, `NotFound`),
`(false, err)` for any other code — never reporting such a failure as
"does not exist" — and `(true, nil)` when the query succeeds. -/
theorem C5_exists_aws_errors (c : String) :
    existsCheck none = .returns true none ∧
    ((c = errCodeNoSuchKey ∨ c = "NotFound") →
       existsCheck (some (.awsError c)) = .returns false none) ∧
    (¬(c = errCodeNoSuchKey ∨ c = "NotFound") →
       existsCheck (some (.awsError c)) = .returns false (some (.awsError c))) := by
  refine ⟨rfl, ?_, ?_⟩
  · intro h
    simp only [existsCheck]
    rw [if_pos h]
  · intro h
    simp only [existsCheck]
    rw [if_neg h]

/-- C5 witness: a throttling error is surfaced, not treated as absence. -/
theorem C5_exists_aws_errors_witness :
    existsCheck (some (.awsError "Throttling")) =
      .returns false (some (.awsError "Throttling")) :=
  (C5_exists_aws_errors "Throttling").2.2 (by decide)

/-- C10: `Exists` panics on any non-AWS-typed metadata-query error, and its
error-returning branch is reachable only with AWS-typed error values. -/
theorem C10_exists_panics_non_aws :
    (∀ t, existsCheck (some (.nonAwsError t)) = .panics) ∧
    (∀ (r : Option HeadErr) (b : Bool) (e : HeadErr),
       existsCheck r = .returns b (some e) → ∃ c, e = .awsError c) := by
  constructor
  · intro t
    rfl
  · intro r b e h
    rcases r with _ | he
    · simp [existsCheck] at h
    · rcases he with c | t
      · simp only [existsCheck] at h
        by_cases hc : c = errCodeNoSuchKey ∨ c = "NotFound"
        · rw [if_pos hc] at h
          simp at h
        · rw [if_neg hc] at h
          injection h with h1 h2
          injection h2 with h3
          exact ⟨c, h3.symm⟩
      · simp [existsCheck] at h

/-- C10 witness: a concrete non-AWS error panics, and a concrete reachable
error branch carries an AWS-typed error. -/
theorem C10_exists_panics_non_aws_witness :
    existsCheck (some (HeadErr.nonAwsError "net/http timeout")) = .panics ∧
    ∃ c, HeadErr.awsError "AccessDenied" = .awsError c :=
  ⟨C10_exists_panics_non_aws.1 "net/http timeout",
   C10_exists_panics_non_aws.2 (some (.awsError "AccessDenied")) false
     (.awsError "AccessDenied") (by decide)⟩

/-! C6: move semantics. -/

/-- C6: the source delete runs only after a successful copy; a copy failure
returns only the copy error and no destination handle; a successful copy
with a failing delete returns both the destination handle and the delete
error. -/
theorem C6_move_delete_order (env : MoveEnv) (copied : FileState) :
    (∀ e, env.copyErr = some e →
       moveToFile env = (some e, false) ∧
       moveToLocation env copied = (none, some e, false)) ∧
    (env.copyErr = none →
       moveToFile env = (env.deleteErr, true) ∧
       moveToLocation env copied = (some copied, env.deleteErr, true)) := by
  constructor
  · intro e h
    simp [moveToFile, moveToLocation, h]
  · intro h
    simp [moveToFile, moveToLocation, h]

/-- A move environment whose copy step fails. -/
def envCopyFail : MoveEnv := { copyErr := some "copy failed", deleteErr := none }

/-- A move environment whose copy succeeds and whose delete fails. -/
def envDeleteFail : MoveEnv :=
  { copyErr := none, deleteErr := some "delete failed" }

/-- C6 witness: a failing copy yields only the copy error with no delete and
no handle; a failing delete after a successful copy yields the handle and
the delete error. -/
theorem C6_move_delete_order_witness :
    (moveToFile envCopyFail = (some "copy failed", false) ∧
     moveToLocation envCopyFail clearedFile = (none, some "copy failed", false)) ∧
    (moveToFile envDeleteFail = (some "delete failed", true) ∧
     moveToLocation envDeleteFail clearedFile =
       (some clearedFile, some "delete failed", true)) :=
  ⟨(C6_move_delete_order envCopyFail clearedFile).1 "copy failed" rfl,
   (C6_move_delete_order envDeleteFail clearedFile).2 rfl⟩

/-! C7: lazy materialization of the local mirror. -/

/-- The mirror a successful materialization installs: named after the key's
basename and the timestamp, cursor reset to offset 0, holding the full
object content. -/
def mirrorOf (key : String) (stamp : Nat) (c : List Nat) : Mirror :=
  { name := baseNameOf key ++ "." ++ toString stamp, cursor := 0, content := c }

/-- C7: the mirror is materialized at most once per instance — with a mirror
present, `checkTempFile` does nothing and fetches nothing; on first access a
successful retrieval installs a mirror holding the full object content with
its cursor at offset 0; a failed retrieval leaves the mirror unset and
returns the error, and the next access retries materialization and can
succeed. -/
theorem C7_mirror_materialization (f : FileState) (env good : ReadEnv)
    (m : Mirror) (c : List Nat) :
    (f.tempFile = some m → checkTempFile f env = (f, none, 0)) ∧
    (f.tempFile = none → env.tempCreateErr = none → env.getObjectRes = .ok c →
       env.copyErr = none → env.seekErr = none →
       checkTempFile f env =
         ({ f with tempFile := some (mirrorOf f.key env.stamp c) }, none, 1)) ∧
    (∀ e n, f.tempFile = none →
       copyToLocalTempReader (baseNameOf f.key) env = (.error e, n) →
       checkTempFile f env = (f, some e, n)) ∧
    (∀ e n, f.tempFile = none →
       copyToLocalTempReader (baseNameOf f.key) env = (.error e, n) →
       good.tempCreateErr = none → good.getObjectRes = .ok c →
       good.copyErr = none → good.seekErr = none →
       checkTempFile (checkTempFile f env).1 good =
         ({ f with tempFile := some (mirrorOf f.key good.stamp c) }, none, 1)) := by
  refine ⟨?_, ?_, ?_, ?_⟩
  · intro h
    simp [checkTempFile, h]
  · intro h h1 h2 h3 h4
    simp [checkTempFile, h, copyToLocalTempReader, h1, h2, h3, h4, mirrorOf]
  · intro e n h hcp
    simp [checkTempFile, h, hcp]
  · intro e n h hcp h1 h2 h3 h4
    have hst : (checkTempFile f env).1 = f := by
      simp [checkTempFile, h, hcp]
    rw [hst]
    simp [checkTempFile, h, copyToLocalTempReader, h1, h2, h3, h4, mirrorOf]

/-- A File that already holds a materialized mirror. -/
def mirroredFile : FileState :=
  { bucket := "docs", key := "a/b/report.txt", tempFile := some mirror0,
    writeBuffer := none }

/-- A read environment whose `GetObject` fails. -/
def badReadEnv : ReadEnv :=
  { tempCreateErr := none, getObjectRes := .error "remote error",
    copyErr := none, seekErr := none, stamp := 7 }

/-- A read environment whose retrieval succeeds with content `[10, 20]`. -/
def goodReadEnv : ReadEnv :=
  { tempCreateErr := none, getObjectRes := .ok [10, 20],
    copyErr := none, seekErr := none, stamp := 8 }

/-- C7 witness: a mirrored File fetches nothing; a failed first retrieval
leaves the mirror unset; the retried materialization then succeeds with the
cursor reset to 0 and the full content installed. -/
theorem C7_mirror_materialization_witness :
    checkTempFile mirroredFile badReadEnv = (mirroredFile, none, 0) ∧
    checkTempFile clearedFile badReadEnv = (clearedFile, some "remote error", 1) ∧
    checkTempFile (checkTempFile clearedFile badReadEnv).1 goodReadEnv =
      ({ clearedFile with
          tempFile := some (mirrorOf clearedFile.key goodReadEnv.stamp [10, 20]) },
        none, 1) :=
  ⟨(C7_mirror_materialization mirroredFile badReadEnv goodReadEnv mirror0
      [10, 20]).1 rfl,
   (C7_mirror_materialization clearedFile badReadEnv goodReadEnv mirror0
      [10, 20]).2.2.1 "remote error" 1 rfl rfl,
   (C7_mirror_materialization clearedFile badReadEnv goodReadEnv mirror0
      [10, 20]).2.2.2 "remote error" 1 rfl rfl rfl rfl rfl rfl⟩

/-! C8: the write path. -/

/-- C8: `Write` reports exactly `data.length` bytes written, performs no
remote store operation, initializes a missing buffer with zero content
before appending, and appends to an existing buffer. -/
theorem C8_write_buffers_locally (f : FileState) (data : List Nat) :
    (fileWrite f data).2.1 = data.length ∧
    (fileWrite f data).2.2 = 0 ∧
    (f.writeBuffer = none → (fileWrite f data).1.writeBuffer = some data) ∧
    (∀ b, f.writeBuffer = some b →
       (fileWrite f data).1.writeBuffer = some (b ++ data)) := by
  refine ⟨rfl, rfl, ?_, ?_⟩
  · intro h
    simp [fileWrite, h]
  · intro b h
    simp [fileWrite, h]

/-- C8 witness: a first write of three bytes to a fresh File. -/
theorem C8_write_buffers_locally_witness :
    (fileWrite clearedFile [1, 2, 3]).2.1 = [1, 2, 3].length ∧
    (fileWrite clearedFile [1, 2, 3]).2.2 = 0 ∧
    (fileWrite clearedFile [1, 2, 3]).1.writeBuffer = some [1, 2, 3] :=
  ⟨(C8_write_buffers_locally clearedFile [1, 2, 3]).1,
   (C8_write_buffers_locally clearedFile [1, 2, 3]).2.1,
   (C8_write_buffers_locally clearedFile [1, 2, 3]).2.2.1 rfl⟩

/-! C9: construction. -/

/-- `checkTempFile` never changes the identity fields of the file. -/
theorem checkTempFile_preserves_identity (g : FileState) (renv : ReadEnv) :
    (checkTempFile g renv).1.bucket = g.bucket ∧
    (checkTempFile g renv).1.key = g.key := by
  rcases ht : g.tempFile with _ | m
  · rcases hres : copyToLocalTempReader (baseNameOf g.key) renv with ⟨res, n⟩
    rcases res with e | mm <;> simp [checkTempFile, ht, hres]
  · simp [checkTempFile, ht]

/-- C9: construction fails exactly when the filesystem reference is absent
or the bucket or key is empty; on success the key is stored with leading
separators stripped, both transient fields are nil, and no remote call is
made (the constructor is a pure function of its arguments); the identity
fields are preserved by every state-changing operation of the embedding. -/
theorem C9_construction_validation (fsPresent : Bool) (bucket key : String) :
    ((newFile fsPresent bucket key).toOption = none ↔
       (fsPresent = false ∨ bucket = "" ∨ key = "")) ∧
    (∀ g, newFile fsPresent bucket key = .ok g →
       g.bucket = bucket ∧ g.key = normalizeKey key ∧
       g.tempFile = none ∧ g.writeBuffer = none) ∧
    (∀ (g : FileState) (data : List Nat) (cenv : CloseEnv) (renv : ReadEnv),
       (fileWrite g data).1.bucket = g.bucket ∧
       (fileWrite g data).1.key = g.key ∧
       (closeFile g cenv).state.bucket = g.bucket ∧
       (closeFile g cenv).state.key = g.key ∧
       (checkTempFile g renv).1.bucket = g.bucket ∧
       (checkTempFile g renv).1.key = g.key) := by
  refine ⟨?_, ?_, ?_⟩
  · cases fsPresent
    · simp [newFile, Except.toOption]
    · by_cases hbk : bucket = "" ∨ key = ""
      · simp [newFile, hbk, Except.toOption]
      · simp [newFile, hbk, Except.toOption]
  · intro g hg
    cases fsPresent
    · simp [newFile] at hg
    · by_cases hbk : bucket = "" ∨ key = ""
      · simp [newFile, hbk] at hg
      · have hnf : newFile true bucket key =
            .ok { bucket := bucket, key := normalizeKey key,
                  tempFile := none, writeBuffer := none } := by
          simp [newFile, hbk]
        rw [hnf] at hg
        injection hg with hg
        subst hg
        exact ⟨rfl, rfl, rfl, rfl⟩
  · intro g data cenv renv
    have hcb := closeBody_preserves_identity g cenv
    have hct := checkTempFile_preserves_identity g renv
    exact ⟨rfl, rfl, by simpa [closeFile] using hcb.1,
      by simpa [closeFile] using hcb.2, hct.1, hct.2⟩

/-- The File `newFile` builds from bucket `"docs"` and key
`"/a/b/report.txt"`. -/
def fdocs : FileState :=
  { bucket := "docs", key := "a/b/report.txt", tempFile := none,
    writeBuffer := none }

/-- C9 witness: constructing with a present filesystem, bucket `"docs"` and
key `"/a/b/report.txt"` succeeds and stores the key with its leading
separator stripped. -/
theorem C9_construction_validation_witness :
    fdocs.bucket = "docs" ∧ fdocs.key = normalizeKey "/a/b/report.txt" ∧
    fdocs.tempFile = none ∧ fdocs.writeBuffer = none :=
  (C9_construction_validation true "docs" "/a/b/report.txt").2.1 fdocs rfl

end VfsS3
